import Mathlib

/-!
Shallow embedding of `src/calculator.js` (home affordability calculator).
All JS numbers are modelled as exact rationals (`ℚ`); the JS `params`
object with optional fields is a structure with `Option` fields whose
defaults are applied with `Option.getD`, mirroring the destructuring
defaults in `calculateHomeNetCost`.  Warning strings are modelled as an
inductive type whose constructors carry the numeric value interpolated
into the corresponding message.
-/

namespace Calculator

/-- Embeds `FilingStatus.SINGLE = 'single'`. -/
def FilingStatus.SINGLE : String := "single"

/-- Embeds `FilingStatus.MARRIED_FILING_JOINTLY = 'married'`. -/
def FilingStatus.MARRIED_FILING_JOINTLY : String := "married"

/-- Embeds `getFederalTaxRate(income, filingStatus)`. -/
def getFederalTaxRate (income : ℚ) (filingStatus : String) : ℚ :=
  if filingStatus = FilingStatus.SINGLE then
    if income ≤ 11000 then 0.10
    else if income ≤ 44725 then 0.12
    else if income ≤ 95375 then 0.22
    else if income ≤ 182050 then 0.24
    else if income ≤ 231250 then 0.32
    else if income ≤ 578125 then 0.35
    else 0.37
  else
    if income ≤ 22000 then 0.10
    else if income ≤ 89450 then 0.12
    else if income ≤ 190750 then 0.22
    else if income ≤ 364200 then 0.24
    else if income ≤ 462500 then 0.32
    else if income ≤ 693750 then 0.35
    else 0.37

/-- The result record of `getTaxRates`. -/
structure TaxRates where
  federal : ℚ
  state : ℚ
  property : ℚ

/-- Embeds `getTaxRates(income, filingStatus, propertyTaxRate)`. -/
def getTaxRates (income : ℚ) (filingStatus : String) (propertyTaxRate : ℚ) : TaxRates :=
  { federal := getFederalTaxRate income filingStatus
    state := 0.0
    property := propertyTaxRate }

/-- One warning produced by `validateInputs`; each constructor stands for
one of the six message strings, carrying the numeric value that the JS
template literal interpolates into the message. -/
inductive Warning where
  | housePriceMustBePositive : Warning
  | userIncomeMustBePositive : Warning
  | mortgageRateUnrealistic : ℚ → Warning
  | homeAppreciationExtreme : ℚ → Warning
  | downPaymentUnusual : ℚ → Warning
  | housePriceOver10xIncome : Warning
  deriving DecidableEq, Repr

/-- The condition a warning reports, with the interpolated value forgotten. -/
inductive WarningKind where
  | housePriceCond : WarningKind
  | userIncomeCond : WarningKind
  | mortgageRateCond : WarningKind
  | homeAppreciationCond : WarningKind
  | downPaymentCond : WarningKind
  | tenTimesIncomeCond : WarningKind
  deriving DecidableEq, Repr

/-- Maps a warning to the condition it reports. -/
def Warning.kind : Warning → WarningKind
  | .housePriceMustBePositive => .housePriceCond
  | .userIncomeMustBePositive => .userIncomeCond
  | .mortgageRateUnrealistic _ => .mortgageRateCond
  | .homeAppreciationExtreme _ => .homeAppreciationCond
  | .downPaymentUnusual _ => .downPaymentCond
  | .housePriceOver10xIncome => .tenTimesIncomeCond

/-- The fixed order in which `validateInputs` checks its six conditions. -/
def canonicalKindOrder : List WarningKind :=
  [WarningKind.housePriceCond, WarningKind.userIncomeCond, WarningKind.mortgageRateCond,
   WarningKind.homeAppreciationCond, WarningKind.downPaymentCond, WarningKind.tenTimesIncomeCond]

/-- Embeds `validateInputs(housePrice, userIncome, mortgageRate, homeAppreciation, downPayment)`:
six sequential condition checks, each pushing one warning. -/
def validateInputs (housePrice userIncome mortgageRate homeAppreciation downPayment : ℚ) :
    List Warning :=
  (if housePrice ≤ 0 then [Warning.housePriceMustBePositive] else []) ++
  (if userIncome ≤ 0 then [Warning.userIncomeMustBePositive] else []) ++
  (if mortgageRate < 0 ∨ mortgageRate > 20 then [Warning.mortgageRateUnrealistic mortgageRate] else []) ++
  (if homeAppreciation < -10 ∨ homeAppreciation > 20 then [Warning.homeAppreciationExtreme homeAppreciation] else []) ++
  (if downPayment < 3 ∨ downPayment > 50 then [Warning.downPaymentUnusual downPayment] else []) ++
  (if housePrice > userIncome * 10 then [Warning.housePriceOver10xIncome] else [])

/-- The six validation conditions of `validateInputs` as a vector of flags,
in check order. -/
def violatedFlags (housePrice userIncome mortgageRate homeAppreciation downPayment : ℚ) :
    List Bool :=
  [decide (housePrice ≤ 0), decide (userIncome ≤ 0),
   decide (mortgageRate < 0 ∨ mortgageRate > 20),
   decide (homeAppreciation < -10 ∨ homeAppreciation > 20),
   decide (downPayment < 3 ∨ downPayment > 50),
   decide (housePrice > userIncome * 10)]

/-- Embeds `calculateMonthlyMortgagePayment(loanAmount, annualRate, years)`. -/
def calculateMonthlyMortgagePayment (loanAmount annualRate : ℚ) (years : ℕ) : ℚ :=
  let monthlyRate := annualRate / 12
  let numPayments := years * 12
  if monthlyRate = 0 then
    loanAmount / (numPayments : ℚ)
  else
    loanAmount * (monthlyRate * (1 + monthlyRate) ^ numPayments) /
      ((1 + monthlyRate) ^ numPayments - 1)

/-- The input record of `calculateHomeNetCost`; fields destructured with a
default in the JS are `Option`s here. -/
structure Params where
  housePrice : ℚ
  userIncome : ℚ
  mortgageRate : ℚ
  homeAppreciation : ℚ
  filingStatus : String
  insurancePercent : Option ℚ
  downPaymentPercent : Option ℚ
  closingCostsPercent : Option ℚ
  opportunityCostRate : Option ℚ
  mortgageYears : Option ℕ
  maintenanceCostRate : Option ℚ
  propertyTaxRate : Option ℚ

/-- The `breakdown` record in the result of `calculateHomeNetCost`. -/
structure Breakdown where
  annualMortgagePayment : ℚ
  propertyTax : ℚ
  insurance : ℚ
  maintenance : ℚ
  opportunityCostUpfront : ℚ
  opportunityCostMortgagePayments : ℚ
  totalOpportunityCost : ℚ
  homeAppreciationValue : ℚ
  mortgageInterestTaxSavings : ℚ
  propertyTaxTaxSavings : ℚ
  downPayment : ℚ
  closingCosts : ℚ
  totalUpfrontCosts : ℚ
  monthlyMortgagePayment : ℚ
  federalTaxRate : ℚ
  stateTaxRate : ℚ

/-- The result record of `calculateHomeNetCost`. -/
structure Result where
  totalNetCost : ℚ
  monthlyPayment : ℚ
  frontEndRatio : ℚ
  isAffordable : Bool
  totalTaxRate : ℚ
  breakdown : Breakdown
  warnings : List Warning

/-- Embeds `calculateHomeNetCost(params)` line by line. -/
def calculateHomeNetCost (params : Params) : Result :=
  let housePrice := params.housePrice
  let userIncome := params.userIncome
  let mortgageRate := params.mortgageRate
  let homeAppreciation := params.homeAppreciation
  let filingStatus := params.filingStatus
  let insurancePercent := params.insurancePercent.getD 0.005
  let downPaymentPercent := params.downPaymentPercent.getD 0.20
  let closingCostsPercent := params.closingCostsPercent.getD 0.03
  let opportunityCostRate := params.opportunityCostRate.getD 0.08
  let mortgageYears := params.mortgageYears.getD 30
  let maintenanceCostRate := params.maintenanceCostRate.getD 0.01
  let propertyTaxRate := params.propertyTaxRate.getD 0.01
  -- Convert percentages
  let mortgageRateDecimal := mortgageRate / 100
  let homeAppreciationDecimal := homeAppreciation / 100
  let downPaymentDecimal := downPaymentPercent / 100
  let opportunityCostDecimal := opportunityCostRate / 100
  let maintenanceCostRateDecimal := maintenanceCostRate / 100
  let propertyTaxRateDecimal := propertyTaxRate / 100
  let warnings := validateInputs housePrice userIncome mortgageRate homeAppreciation downPaymentPercent
  let taxRates := getTaxRates userIncome filingStatus propertyTaxRateDecimal
  let totalTaxRate := taxRates.federal + taxRates.state
  -- Upfront costs
  let downPayment := housePrice * downPaymentDecimal
  let closingCosts := housePrice * closingCostsPercent
  let totalUpfrontCosts := downPayment + closingCosts
  let opportunityCostUpfront := totalUpfrontCosts * opportunityCostDecimal
  -- Mortgage calculations
  let loanAmount := housePrice - downPayment
  let monthlyMortgagePayment := calculateMonthlyMortgagePayment loanAmount mortgageRateDecimal mortgageYears
  let annualMortgagePayment := monthlyMortgagePayment * 12
  let opportunityCostMortgagePayments := annualMortgagePayment * opportunityCostDecimal
  let totalOpportunityCost := opportunityCostUpfront + opportunityCostMortgagePayments
  -- Other annual costs
  let propertyTax := housePrice * taxRates.property
  let propertyTaxDeduction := min propertyTax 10000
  let insurance := housePrice * insurancePercent
  let maintenance := housePrice * maintenanceCostRateDecimal
  -- Tax benefits
  let mortgagePrincipalForDeduction := min loanAmount 750000
  let annualMortgageInterest := mortgagePrincipalForDeduction * mortgageRateDecimal
  let mortgageInterestTaxSavings := annualMortgageInterest * totalTaxRate
  let propertyTaxTaxSavings := propertyTaxDeduction * totalTaxRate
  -- Home appreciation
  let homeAppreciationValue := housePrice * homeAppreciationDecimal
  -- Net cost calculation
  let totalAnnualCosts := annualMortgagePayment + propertyTax + insurance + maintenance + totalOpportunityCost
  let totalAnnualBenefits := homeAppreciationValue + mortgageInterestTaxSavings + propertyTaxTaxSavings
  let totalNetCost := totalAnnualCosts - totalAnnualBenefits
  -- Affordability analysis
  let monthlyPayment := (annualMortgagePayment + propertyTax + insurance + maintenance) / 12
  let monthlyIncome := userIncome / 12
  let frontEndRatio := monthlyPayment / monthlyIncome
  let isAffordable : Bool := decide ( frontEndRatio ≤ 0.28)
  { totalNetCost := totalNetCost
    monthlyPayment := monthlyPayment
    frontEndRatio := frontEndRatio
    isAffordable := isAffordable
    totalTaxRate := totalTaxRate
    breakdown :=
      { annualMortgagePayment := annualMortgagePayment
        propertyTax := propertyTax
        insurance := insurance
        maintenance := maintenance
        opportunityCostUpfront := opportunityCostUpfront
        opportunityCostMortgagePayments := opportunityCostMortgagePayments
        totalOpportunityCost := totalOpportunityCost
        homeAppreciationValue := homeAppreciationValue
        mortgageInterestTaxSavings := mortgageInterestTaxSavings
        propertyTaxTaxSavings := propertyTaxTaxSavings
        downPayment := downPayment
        closingCosts := closingCosts
        totalUpfrontCosts := totalUpfrontCosts
        monthlyMortgagePayment := monthlyMortgagePayment
        federalTaxRate := taxRates.federal
        stateTaxRate := taxRates.state }
    warnings := warnings }

/-- The 2023 single-filer bracket table of `getFederalTaxRate`, as ordered
(upper bound, rate) pairs; the top rate 0.37 applies above the last bound. -/
def singleBrackets : List (ℚ × ℚ) :=
  [(11000, 0.10), (44725, 0.12), (95375, 0.22), (182050, 0.24),
   (231250, 0.32), (578125, 0.35)]

/-- The 2023 married-filing-jointly bracket table of `getFederalTaxRate`. -/
def marriedBrackets : List (ℚ × ℚ) :=
  [(22000, 0.10), (89450, 0.12), (190750, 0.22), (364200, 0.24),
   (462500, 0.32), (693750, 0.35)]

/-- The top federal rate, returned above the highest threshold. -/
def topRate : ℚ := 0.37

/-- Modelled from the spec: the selection rule "the rate of the first
bracket whose upper bound is ≥ income, scanning thresholds ascending;
above the highest threshold the top rate applies". -/
def bracketLookup (brackets : List (ℚ × ℚ)) (top income : ℚ) : ℚ :=
  match brackets with
  | [] => top
  | (bound, rate) :: rest => if income ≤ bound then rate else bracketLookup rest top income

/-- The property-tax deduction computed inside `calculateHomeNetCost`:
`Math.min(housePrice * propertyTaxRateDecimal, 10000)` where
`propertyTaxRateDecimal = propertyTaxRate / 100`. -/
def propertyTaxDeductionOf (housePrice ptRatePercent : ℚ) : ℚ :=
  min (housePrice * (ptRatePercent / 100)) 10000

/-- The flat annual mortgage interest computed inside `calculateHomeNetCost`:
`Math.min(loanAmount, 750000) * mortgageRateDecimal` with
`loanAmount = housePrice - housePrice * downPaymentDecimal`. -/
def annualMortgageInterestOf (housePrice dpPercent mRatePercent : ℚ) : ℚ :=
  min (housePrice - housePrice * (dpPercent / 100)) 750000 * (mRatePercent / 100)

/-- A params record that leaves every optional field absent, so every
destructuring default of `calculateHomeNetCost` applies. -/
def c1Input : Params :=
  { housePrice := 500000
    userIncome := 120000
    mortgageRate := 6.5
    homeAppreciation := 3
    filingStatus := FilingStatus.SINGLE
    insurancePercent := none
    downPaymentPercent := none
    closingCostsPercent := none
    opportunityCostRate := none
    mortgageYears := none
    maintenanceCostRate := none
    propertyTaxRate := none }

/-- A params record supplying `insurancePercent = 50` (meant as 50 percent
per the spec reading) with `housePrice = 100`. -/
def c2Input : Params :=
  { housePrice := 100
    userIncome := 120000
    mortgageRate := 6.5
    homeAppreciation := 3
    filingStatus := FilingStatus.SINGLE
    insurancePercent := some 50
    downPaymentPercent := some 20
    closingCostsPercent := none
    opportunityCostRate := none
    mortgageYears := none
    maintenanceCostRate := none
    propertyTaxRate := none }

section ProjectionLemmas

variable (p : Params)

/-- The warnings field is exactly `validateInputs` applied as in the source
(note the source passes the percent-form `downPaymentPercent`). -/
theorem warnings_eq :
    (calculateHomeNetCost p).warnings =
      validateInputs p.housePrice p.userIncome p.mortgageRate p.homeAppreciation
        (p.downPaymentPercent.getD 0.20) := rfl

theorem breakdown_downPayment :
    (calculateHomeNetCost p).breakdown.downPayment =
      p.housePrice * (p.downPaymentPercent.getD 0.20 / 100) := rfl

theorem breakdown_closingCosts :
    (calculateHomeNetCost p).breakdown.closingCosts =
      p.housePrice * p.closingCostsPercent.getD 0.03 := rfl

theorem breakdown_totalUpfrontCosts :
    (calculateHomeNetCost p).breakdown.totalUpfrontCosts =
      p.housePrice * (p.downPaymentPercent.getD 0.20 / 100) +
        p.housePrice * p.closingCostsPercent.getD 0.03 := rfl

theorem breakdown_opportunityCostUpfront :
    (calculateHomeNetCost p).breakdown.opportunityCostUpfront =
      (p.housePrice * (p.downPaymentPercent.getD 0.20 / 100) +
        p.housePrice * p.closingCostsPercent.getD 0.03) *
        (p.opportunityCostRate.getD 0.08 / 100) := rfl

theorem breakdown_monthlyMortgagePayment :
    (calculateHomeNetCost p).breakdown.monthlyMortgagePayment =
      calculateMonthlyMortgagePayment
        (p.housePrice - p.housePrice * (p.downPaymentPercent.getD 0.20 / 100))
        (p.mortgageRate / 100) (p.mortgageYears.getD 30) := rfl

theorem breakdown_annualMortgagePayment :
    (calculateHomeNetCost p).breakdown.annualMortgagePayment =
      (calculateHomeNetCost p).breakdown.monthlyMortgagePayment * 12 := rfl

theorem breakdown_opportunityCostMortgagePayments :
    (calculateHomeNetCost p).breakdown.opportunityCostMortgagePayments =
      (calculateHomeNetCost p).breakdown.annualMortgagePayment *
        (p.opportunityCostRate.getD 0.08 / 100) := rfl

theorem breakdown_totalOpportunityCost :
    (calculateHomeNetCost p).breakdown.totalOpportunityCost =
      (calculateHomeNetCost p).breakdown.opportunityCostUpfront +
        (calculateHomeNetCost p).breakdown.opportunityCostMortgagePayments := rfl

theorem breakdown_propertyTax :
    (calculateHomeNetCost p).breakdown.propertyTax =
      p.housePrice * (p.propertyTaxRate.getD 0.01 / 100) := rfl

theorem breakdown_insurance :
    (calculateHomeNetCost p).breakdown.insurance =
      p.housePrice * p.insurancePercent.getD 0.005 := rfl

theorem breakdown_maintenance :
    (calculateHomeNetCost p).breakdown.maintenance =
      p.housePrice * (p.maintenanceCostRate.getD 0.01 / 100) := rfl

theorem breakdown_mortgageInterestTaxSavings :
    (calculateHomeNetCost p).breakdown.mortgageInterestTaxSavings =
      annualMortgageInterestOf p.housePrice (p.downPaymentPercent.getD 0.20) p.mortgageRate *
        (calculateHomeNetCost p).totalTaxRate := rfl

theorem breakdown_propertyTaxTaxSavings :
    (calculateHomeNetCost p).breakdown.propertyTaxTaxSavings =
      propertyTaxDeductionOf p.housePrice (p.propertyTaxRate.getD 0.01) *
        (calculateHomeNetCost p).totalTaxRate := rfl

theorem breakdown_homeAppreciationValue :
    (calculateHomeNetCost p).breakdown.homeAppreciationValue =
      p.housePrice * (p.homeAppreciation / 100) := rfl

theorem breakdown_federalTaxRate :
    (calculateHomeNetCost p).breakdown.federalTaxRate =
      getFederalTaxRate p.userIncome p.filingStatus := rfl

theorem breakdown_stateTaxRate :
    (calculateHomeNetCost p).breakdown.stateTaxRate = 0 := by
  show (0.0 : ℚ) = 0
  norm_num

theorem totalTaxRate_eq :
    (calculateHomeNetCost p).totalTaxRate =
      getFederalTaxRate p.userIncome p.filingStatus + 0.0 := rfl

theorem totalNetCost_eq :
    (calculateHomeNetCost p).totalNetCost =
      ((calculateHomeNetCost p).breakdown.annualMortgagePayment +
        (calculateHomeNetCost p).breakdown.propertyTax +
        (calculateHomeNetCost p).breakdown.insurance +
        (calculateHomeNetCost p).breakdown.maintenance +
        (calculateHomeNetCost p).breakdown.totalOpportunityCost) -
      ((calculateHomeNetCost p).breakdown.homeAppreciationValue +
        (calculateHomeNetCost p).breakdown.mortgageInterestTaxSavings +
        (calculateHomeNetCost p).breakdown.propertyTaxTaxSavings) := rfl

theorem monthlyPayment_eq :
    (calculateHomeNetCost p).monthlyPayment =
      ((calculateHomeNetCost p).breakdown.annualMortgagePayment +
        (calculateHomeNetCost p).breakdown.propertyTax +
        (calculateHomeNetCost p).breakdown.insurance +
        (calculateHomeNetCost p).breakdown.maintenance) / 12 := rfl

theorem frontEndRatio_eq :
    Result.frontEndRatio (calculateHomeNetCost p) =
      (calculateHomeNetCost p).monthlyPayment / (p.userIncome / 12) := rfl

theorem isAffordable_eq :
    (calculateHomeNetCost p).isAffordable =
      decide ( Result.frontEndRatio (calculateHomeNetCost p) ≤ 0.28) := rfl

end ProjectionLemmas

/-- C1: with every optional field omitted (housePrice 500000), the code's
defaults do NOT behave as the named percentages: the default constants are
decimal fractions yet are divided by 100 again, so propertyTax and
maintenance come out as 50 (0.01% of price) instead of 5000 (1%), the
default down payment is 1000 (0.2%) instead of 100000 (20%), and the code's
own validation flags its own default down payment as unusual; only
insurance (2500) matches the claimed default behaviour. -/
theorem claim_C1_default_bug :
    (calculateHomeNetCost c1Input).breakdown.propertyTax = 50 ∧
    (calculateHomeNetCost c1Input).breakdown.maintenance = 50 ∧
    (calculateHomeNetCost c1Input).breakdown.insurance = 2500 ∧
    (calculateHomeNetCost c1Input).breakdown.downPayment = 1000 ∧
    (calculateHomeNetCost c1Input).warnings = [Warning.downPaymentUnusual 0.20] := by
  refine ⟨?_, ?_, ?_, ?_, ?_⟩ <;>
    norm_num [breakdown_propertyTax, breakdown_maintenance, breakdown_insurance,
      breakdown_downPayment, warnings_eq, c1Input, validateInputs]

/-- C2 counterexample: with housePrice 100 and insurancePercent 50 supplied,
the code computes insurance = 100 × 50 = 5000, not 100 × 50/100 = 50:
insurancePercent is never divided by 100. -/
theorem claim_C2_cex :
    (calculateHomeNetCost c2Input).breakdown.insurance = 5000 ∧
    (calculateHomeNetCost c2Input).breakdown.insurance ≠
      c2Input.housePrice * (c2Input.insurancePercent.getD 0.005 / 100) := by
  constructor <;> norm_num [breakdown_insurance, c2Input]

/-- C2 amended: six of the eight percentage fields (mortgageRate,
homeAppreciation, downPaymentPercent, opportunityCostRate,
maintenanceCostRate, propertyTaxRate) are divided by 100 before use, but
insurancePercent and closingCostsPercent are used directly as decimal
fractions: insurance = housePrice × insurancePercent and
closingCosts = housePrice × closingCostsPercent. -/
theorem claim_C2_conversions (p : Params) :
    (calculateHomeNetCost p).breakdown.insurance =
      p.housePrice * p.insurancePercent.getD 0.005 ∧
    (calculateHomeNetCost p).breakdown.closingCosts =
      p.housePrice * p.closingCostsPercent.getD 0.03 ∧
    (calculateHomeNetCost p).breakdown.downPayment =
      p.housePrice * (p.downPaymentPercent.getD 0.20 / 100) ∧
    (calculateHomeNetCost p).breakdown.propertyTax =
      p.housePrice * (p.propertyTaxRate.getD 0.01 / 100) ∧
    (calculateHomeNetCost p).breakdown.maintenance =
      p.housePrice * (p.maintenanceCostRate.getD 0.01 / 100) ∧
    (calculateHomeNetCost p).breakdown.homeAppreciationValue =
      p.housePrice * (p.homeAppreciation / 100) ∧
    (calculateHomeNetCost p).breakdown.opportunityCostUpfront =
      ((calculateHomeNetCost p).breakdown.downPayment +
        (calculateHomeNetCost p).breakdown.closingCosts) *
        (p.opportunityCostRate.getD 0.08 / 100) ∧
    (calculateHomeNetCost p).breakdown.mortgageInterestTaxSavings =
      min (p.housePrice - p.housePrice * (p.downPaymentPercent.getD 0.20 / 100)) 750000 *
        (p.mortgageRate / 100) * (calculateHomeNetCost p).totalTaxRate :=
  ⟨rfl, rfl, rfl, rfl, rfl, rfl, rfl, rfl⟩

/-- C3: the aggregation identity totalNetCost = totalAnnualCosts −
totalAnnualBenefits holds exactly (the model is exact rational arithmetic,
no rounding before display). -/
theorem claim_C3_aggregation (p : Params) :
    (calculateHomeNetCost p).totalNetCost =
      ((calculateHomeNetCost p).breakdown.annualMortgagePayment +
        (calculateHomeNetCost p).breakdown.propertyTax +
        (calculateHomeNetCost p).breakdown.insurance +
        (calculateHomeNetCost p).breakdown.maintenance +
        (calculateHomeNetCost p).breakdown.totalOpportunityCost) -
      ((calculateHomeNetCost p).breakdown.homeAppreciationValue +
        (calculateHomeNetCost p).breakdown.mortgageInterestTaxSavings +
        (calculateHomeNetCost p).breakdown.propertyTaxTaxSavings) := rfl

/-- C6: monthlyPayment is the opportunity-cost-free annual housing cost
divided by 12, frontEndRatio divides it by monthly income, and
isAffordable holds exactly when frontEndRatio ≤ 0.28. -/
theorem claim_C6_affordability (p : Params) :
    (calculateHomeNetCost p).monthlyPayment =
      ((calculateHomeNetCost p).breakdown.annualMortgagePayment +
        (calculateHomeNetCost p).breakdown.propertyTax +
        (calculateHomeNetCost p).breakdown.insurance +
        (calculateHomeNetCost p).breakdown.maintenance) / 12 ∧
    Result.frontEndRatio (calculateHomeNetCost p) =
      (calculateHomeNetCost p).monthlyPayment / (p.userIncome / 12) ∧
    ((calculateHomeNetCost p).isAffordable = true ↔
      Result.frontEndRatio (calculateHomeNetCost p) ≤ 0.28) := by
  refine ⟨rfl, rfl, ?_⟩
  rw [isAffordable_eq]
  exact decide_eq_true_iff

/-- C10: internal consistency of the breakdown record: the opportunity-cost
total and upfront total are the sums of their parts, the annual mortgage
payment is 12 times the monthly one, the state tax rate is 0 and the total
tax rate equals the federal rate. -/
theorem claim_C10_breakdown (p : Params) :
    (calculateHomeNetCost p).breakdown.totalOpportunityCost =
      (calculateHomeNetCost p).breakdown.opportunityCostUpfront +
        (calculateHomeNetCost p).breakdown.opportunityCostMortgagePayments ∧
    (calculateHomeNetCost p).breakdown.totalUpfrontCosts =
      (calculateHomeNetCost p).breakdown.downPayment +
        (calculateHomeNetCost p).breakdown.closingCosts ∧
    (calculateHomeNetCost p).breakdown.annualMortgagePayment =
      12 * (calculateHomeNetCost p).breakdown.monthlyMortgagePayment ∧
    (calculateHomeNetCost p).breakdown.stateTaxRate = 0 ∧
    (calculateHomeNetCost p).totalTaxRate =
      (calculateHomeNetCost p).breakdown.federalTaxRate := by
  refine ⟨rfl, rfl, ?_, breakdown_stateTaxRate p, ?_⟩
  · rw [breakdown_annualMortgagePayment, mul_comm]
  · rw [totalTaxRate_eq, breakdown_federalTaxRate]
    norm_num

/-- C4 counterexample: for rate > 0 the product payment × numPayments does
NOT reconstruct the loan amount within any floating-point tolerance: with
loanAmount 1200, annual rate 6/5 (monthly rate 1/10) and a 1-year term the
product exceeds the loan amount by more than 900 on a 1200 loan. -/
theorem claim_C4_cex :
    0 < (6 / 5 : ℚ) / 12 ∧
    calculateMonthlyMortgagePayment 1200 (6 / 5) 1 * ((1 * 12 : ℕ) : ℚ) - 1200 > 900 := by
  constructor
  · norm_num
  · norm_num [calculateMonthlyMortgagePayment]

/-- C4 amended: when the monthly rate is exactly zero and the term is
positive, payment = loanAmount / numPayments and payment × numPayments =
loanAmount exactly; when the monthly rate is positive, payment ×
numPayments is the total of all payments (principal plus interest), and
the exact identity satisfied instead is the cross-multiplied amortization
equation payment × ((1+m)^n − 1) = loanAmount × m × (1+m)^n. -/
theorem claim_C4_amortization (loanAmount annualRate : ℚ) (years : ℕ) :
    (annualRate / 12 = 0 → 0 < years →
      calculateMonthlyMortgagePayment loanAmount annualRate years =
        loanAmount / ((years * 12 : ℕ) : ℚ) ∧
      calculateMonthlyMortgagePayment loanAmount annualRate years * ((years * 12 : ℕ) : ℚ) =
        loanAmount) ∧
    (0 < annualRate / 12 → 0 < years →
      calculateMonthlyMortgagePayment loanAmount annualRate years *
          ((1 + annualRate / 12) ^ (years * 12) - 1) =
        loanAmount * (annualRate / 12) * (1 + annualRate / 12) ^ (years * 12)) := by
  constructor
  · intro h0 hy
    constructor
    · simp only [calculateMonthlyMortgagePayment, if_pos h0]
    · simp only [calculateMonthlyMortgagePayment, if_pos h0]
      have hn : (years * 12 : ℕ) ≠ 0 := by omega
      have hne : ((years * 12 : ℕ) : ℚ) ≠ 0 := Nat.cast_ne_zero.mpr hn
      exact div_mul_cancel₀ loanAmount hne
  · intro hm hy
    have hmne : annualRate / 12 ≠ 0 := ne_of_gt hm
    simp only [calculateMonthlyMortgagePayment, if_neg hmne]
    have hA : 1 < (1 + annualRate / 12) ^ (years * 12) := by
      apply one_lt_pow₀ (by linarith)
      omega
    have hAne : (1 + annualRate / 12) ^ (years * 12) - 1 ≠ 0 :=
      sub_ne_zero_of_ne (ne_of_gt hA)
    rw [div_mul_cancel₀ _ hAne]
    ring

/-- C4 witness: both branches of the amended amortization identity at the
concrete inputs of the counterexample. -/
theorem claim_C4_witness :
    (calculateMonthlyMortgagePayment 1200 0 1 = 1200 / ((1 * 12 : ℕ) : ℚ) ∧
      calculateMonthlyMortgagePayment 1200 0 1 * ((1 * 12 : ℕ) : ℚ) = 1200) ∧
    calculateMonthlyMortgagePayment 1200 (6 / 5) 1 *
        ((1 + (6 / 5 : ℚ) / 12) ^ (1 * 12) - 1) =
      1200 * ((6 / 5 : ℚ) / 12) * (1 + (6 / 5 : ℚ) / 12) ^ (1 * 12) :=
  ⟨(claim_C4_amortization 1200 0 1).1 (by norm_num) (by norm_num),
   (claim_C4_amortization 1200 (6 / 5) 1).2 (by norm_num) (by norm_num)⟩

set_option maxHeartbeats 1000000 in
/-- C5: the federal rate lookup is a step function: non-decreasing in
income for a fixed filing status; it refines the spec's selection rule
(first bracket whose upper bound is ≥ income, top rate 0.37 above the
highest threshold) over the 2023 tables; every married-filing-jointly
threshold is ≥ the corresponding single threshold with the same rates
10/12/22/24/32/35 (and top rate 37%). -/
theorem claim_C5_step_function :
    (∀ (fs : String) (a b : ℚ), a ≤ b →
      getFederalTaxRate a fs ≤ getFederalTaxRate b fs) ∧
    (∀ (income : ℚ) (fs : String),
      getFederalTaxRate income fs =
        bracketLookup (if fs = FilingStatus.SINGLE then singleBrackets else marriedBrackets)
          topRate income) ∧
    List.Forall₂ (fun s m => s.1 ≤ m.1 ∧ s.2 = m.2) singleBrackets marriedBrackets ∧
    singleBrackets.map Prod.snd = [0.10, 0.12, 0.22, 0.24, 0.32, 0.35] ∧
    topRate = 0.37 := by
  refine ⟨?_, ?_, ?_, rfl, rfl⟩
  · intro fs a b h
    unfold getFederalTaxRate
    split_ifs <;> (try norm_num) <;> linarith
  · intro income fs
    by_cases h : fs = FilingStatus.SINGLE <;>
      simp [getFederalTaxRate, bracketLookup, singleBrackets, marriedBrackets, topRate, h]
  · refine List.Forall₂.cons (by norm_num) ?_
    refine List.Forall₂.cons (by norm_num) ?_
    refine List.Forall₂.cons (by norm_num) ?_
    refine List.Forall₂.cons (by norm_num) ?_
    refine List.Forall₂.cons (by norm_num) ?_
    exact List.Forall₂.cons (by norm_num) List.Forall₂.nil

/-- C5 witness: monotonicity applied at the concrete incomes 100000 and
200000 for the single filing status. -/
theorem claim_C5_witness :
    getFederalTaxRate 100000 FilingStatus.SINGLE ≤
      getFederalTaxRate 200000 FilingStatus.SINGLE :=
  claim_C5_step_function.1 FilingStatus.SINGLE 100000 200000 (by norm_num)

/-- C9: any filing status other than 'single' — including unrecognized
strings — selects the married-filing-jointly table, and the lookup always
returns one of the seven bracket rates. -/
theorem claim_C9_fallback :
    (∀ (income : ℚ) (fs : String), fs ≠ FilingStatus.SINGLE →
      getFederalTaxRate income fs = bracketLookup marriedBrackets topRate income) ∧
    (∀ (income : ℚ) (fs : String),
      getFederalTaxRate income fs ∈
        ([0.10, 0.12, 0.22, 0.24, 0.32, 0.35, 0.37] : List ℚ)) := by
  constructor
  · intro income fs h
    simp [getFederalTaxRate, bracketLookup, marriedBrackets, topRate, h]
  · intro income fs
    unfold getFederalTaxRate
    split_ifs <;> simp

/-- C9 witness: the empty filing status falls back to the married table
at income 50000, where the rate is 0.12. -/
theorem claim_C9_witness :
    getFederalTaxRate 50000 "" = bracketLookup marriedBrackets topRate 50000 ∧
    getFederalTaxRate 50000 "" = 0.12 := by
  constructor
  · exact claim_C9_fallback.1 50000 "" (by decide)
  · have hne : ("" : String) ≠ FilingStatus.SINGLE := by decide
    rw [claim_C9_fallback.1 50000 "" hne]
    norm_num [bracketLookup, marriedBrackets]

/-- C8: holding the rate inputs fixed with nonnegative rates and a down
payment percentage of at most 100, both deductions are non-decreasing in
house price and constant once the house price puts them at their caps;
the last conjunct ties the two deduction functions to the breakdown
fields of `calculateHomeNetCost`. -/
theorem claim_C8_deduction_mono (ptRate dpPercent mRate h1 h2 : ℚ) (hle : h1 ≤ h2)
    (hpt : 0 ≤ ptRate) (hmr : 0 ≤ mRate) (hdp : dpPercent ≤ 100) :
    propertyTaxDeductionOf h1 ptRate ≤ propertyTaxDeductionOf h2 ptRate ∧
    annualMortgageInterestOf h1 dpPercent mRate ≤ annualMortgageInterestOf h2 dpPercent mRate ∧
    (10000 ≤ h1 * (ptRate / 100) →
      propertyTaxDeductionOf h1 ptRate = 10000 ∧
      propertyTaxDeductionOf h2 ptRate = 10000) ∧
    (750000 ≤ h1 - h1 * (dpPercent / 100) →
      annualMortgageInterestOf h1 dpPercent mRate = 750000 * (mRate / 100) ∧
      annualMortgageInterestOf h2 dpPercent mRate = 750000 * (mRate / 100)) ∧
    (∀ p : Params,
      (calculateHomeNetCost p).breakdown.propertyTaxTaxSavings =
        propertyTaxDeductionOf p.housePrice (p.propertyTaxRate.getD 0.01) *
          (calculateHomeNetCost p).totalTaxRate ∧
      (calculateHomeNetCost p).breakdown.mortgageInterestTaxSavings =
        annualMortgageInterestOf p.housePrice (p.downPaymentPercent.getD 0.20) p.mortgageRate *
          (calculateHomeNetCost p).totalTaxRate) := by
  have hpt100 : (0 : ℚ) ≤ ptRate / 100 := by positivity
  have hmr100 : (0 : ℚ) ≤ mRate / 100 := by positivity
  have hmulpt : h1 * (ptRate / 100) ≤ h2 * (ptRate / 100) :=
    mul_le_mul_of_nonneg_right hle hpt100
  have hcoef : (0 : ℚ) ≤ 1 - dpPercent / 100 := by linarith
  have hloan : h1 - h1 * (dpPercent / 100) ≤ h2 - h2 * (dpPercent / 100) := by
    nlinarith [mul_nonneg (sub_nonneg.mpr hle) hcoef]
  refine ⟨?_, ?_, ?_, ?_, ?_⟩
  · exact min_le_min hmulpt le_rfl
  · exact mul_le_mul_of_nonneg_right (min_le_min hloan le_rfl) hmr100
  · intro hcap
    exact ⟨min_eq_right hcap, min_eq_right (le_trans hcap hmulpt)⟩
  · intro hcap
    constructor
    · rw [annualMortgageInterestOf, min_eq_right hcap]
    · rw [annualMortgageInterestOf, min_eq_right (le_trans hcap hloan)]
  · intro p
    exact ⟨rfl, rfl⟩

/-- C8 witness: the deduction monotonicity at house prices 100 ≤ 200 with
property tax rate 1, down payment 20 and mortgage rate 5. -/
theorem claim_C8_witness :
    propertyTaxDeductionOf 100 1 ≤ propertyTaxDeductionOf 200 1 ∧
    annualMortgageInterestOf 100 20 5 ≤ annualMortgageInterestOf 200 20 5 ∧
    (10000 ≤ (100 : ℚ) * (1 / 100) →
      propertyTaxDeductionOf 100 1 = 10000 ∧ propertyTaxDeductionOf 200 1 = 10000) ∧
    (750000 ≤ (100 : ℚ) - 100 * (20 / 100) →
      annualMortgageInterestOf 100 20 5 = 750000 * (5 / 100) ∧
      annualMortgageInterestOf 200 20 5 = 750000 * (5 / 100)) ∧
    (∀ p : Params,
      (calculateHomeNetCost p).breakdown.propertyTaxTaxSavings =
        propertyTaxDeductionOf p.housePrice (p.propertyTaxRate.getD 0.01) *
          (calculateHomeNetCost p).totalTaxRate ∧
      (calculateHomeNetCost p).breakdown.mortgageInterestTaxSavings =
        annualMortgageInterestOf p.housePrice (p.downPaymentPercent.getD 0.20) p.mortgageRate *
          (calculateHomeNetCost p).totalTaxRate) :=
  claim_C8_deduction_mono 1 20 5 100 200 (by norm_num) (by norm_num) (by norm_num)
    (by norm_num)

/-- A conditionally pushed singleton is a sublist of the unconditional one. -/
theorem if_singleton_sub {α : Type} (c : Prop) [Decidable c] (a : α) :
    List.Sublist (if c then [a] else []) [a] := by
  split_ifs
  · exact List.Sublist.refl _
  · exact List.nil_sublist _

/-- If one push condition implies another, the first conditional singleton
is a sublist of the second. -/
theorem if_singleton_sub_of_imp {α : Type} {c1 c2 : Prop} [Decidable c1] [Decidable c2]
    (h : c1 → c2) (a : α) :
    List.Sublist (if c1 then [a] else []) (if c2 then [a] else []) := by
  by_cases hc : c1
  · rw [if_pos hc, if_pos (h hc)]
  · rw [if_neg hc]
    exact List.nil_sublist _

/-- Mapping a function over a conditional singleton. -/
theorem map_if_singleton {α β : Type} (f : α → β) (c : Prop) [Decidable c] (a : α) :
    (if c then [a] else []).map f = if c then [f a] else [] := by
  split_ifs <;> simp

/-- C7 counterexample: two inputs that violate exactly the same set of
conditions (only the mortgage-rate check, at rates 25 and 30) produce
warning sequences neither of which extends the other, because the message
embeds the offending rate; the claim's unconditional extension property is
false. -/
theorem claim_C7_cex :
    violatedFlags 500000 120000 25 3 20 = violatedFlags 500000 120000 30 3 20 ∧
    ¬ List.Sublist (validateInputs 500000 120000 25 3 20)
      (validateInputs 500000 120000 30 3 20) := by
  constructor
  · simp only [violatedFlags, List.cons.injEq, and_true, decide_eq_decide]
    norm_num
  · intro h
    have e1 : validateInputs 500000 120000 25 3 20 = [Warning.mortgageRateUnrealistic 25] := by
      norm_num [validateInputs]
    have e2 : validateInputs 500000 120000 30 3 20 = [Warning.mortgageRateUnrealistic 30] := by
      norm_num [validateInputs]
    rw [e1, e2] at h
    have hmem : Warning.mortgageRateUnrealistic (25 : ℚ) ∈
        [Warning.mortgageRateUnrealistic (30 : ℚ)] :=
      h.subset (List.mem_singleton_self _)
    norm_num at hmem

/-- C7 amended: validation checks its six conditions in the fixed order
house-price, income, mortgage-rate, appreciation, down-payment, 10x-income
(the warning-kind sequence is always a subsequence of that canonical
order); it never stops the computation — the result always carries both
the `validateInputs` annotation and the fully computed net cost (and the
embedding is a total function, so no error is ever raised); additivity
holds at the level of warning conditions: if every condition violated by
the first input is violated by the second, the second's kind sequence
extends the first's; the full message sequences extend whenever the two
inputs also agree on the three interpolated fields (mortgageRate,
homeAppreciation, downPaymentPercent), whose values the messages embed. -/
theorem claim_C7_validation :
    (∀ hp ui mr ha dp : ℚ,
      List.Sublist ((validateInputs hp ui mr ha dp).map Warning.kind) canonicalKindOrder) ∧
    (∀ p : Params,
      (calculateHomeNetCost p).warnings =
        validateInputs p.housePrice p.userIncome p.mortgageRate p.homeAppreciation
          (p.downPaymentPercent.getD 0.20) ∧
      (calculateHomeNetCost p).totalNetCost =
        ((calculateHomeNetCost p).breakdown.annualMortgagePayment +
          (calculateHomeNetCost p).breakdown.propertyTax +
          (calculateHomeNetCost p).breakdown.insurance +
          (calculateHomeNetCost p).breakdown.maintenance +
          (calculateHomeNetCost p).breakdown.totalOpportunityCost) -
        ((calculateHomeNetCost p).breakdown.homeAppreciationValue +
          (calculateHomeNetCost p).breakdown.mortgageInterestTaxSavings +
          (calculateHomeNetCost p).breakdown.propertyTaxTaxSavings)) ∧
    (∀ hp1 ui1 mr1 ha1 dp1 hp2 ui2 mr2 ha2 dp2 : ℚ,
      (hp1 ≤ 0 → hp2 ≤ 0) → (ui1 ≤ 0 → ui2 ≤ 0) →
      (mr1 < 0 ∨ mr1 > 20 → mr2 < 0 ∨ mr2 > 20) →
      (ha1 < -10 ∨ ha1 > 20 → ha2 < -10 ∨ ha2 > 20) →
      (dp1 < 3 ∨ dp1 > 50 → dp2 < 3 ∨ dp2 > 50) →
      (hp1 > ui1 * 10 → hp2 > ui2 * 10) →
      List.Sublist ((validateInputs hp1 ui1 mr1 ha1 dp1).map Warning.kind)
        ((validateInputs hp2 ui2 mr2 ha2 dp2).map Warning.kind)) ∧
    (∀ hp1 ui1 hp2 ui2 mr ha dp : ℚ,
      (hp1 ≤ 0 → hp2 ≤ 0) → (ui1 ≤ 0 → ui2 ≤ 0) →
      (hp1 > ui1 * 10 → hp2 > ui2 * 10) →
      List.Sublist (validateInputs hp1 ui1 mr ha dp) (validateInputs hp2 ui2 mr ha dp)) := by
  refine ⟨?_, ?_, ?_, ?_⟩
  · intro hp ui mr ha dp
    unfold validateInputs canonicalKindOrder
    simp only [List.map_append, map_if_singleton, Warning.kind]
    exact List.Sublist.append
      (List.Sublist.append
        (List.Sublist.append
          (List.Sublist.append
            (List.Sublist.append (if_singleton_sub _ _) (if_singleton_sub _ _))
            (if_singleton_sub _ _))
          (if_singleton_sub _ _))
        (if_singleton_sub _ _))
      (if_singleton_sub _ _)
  · intro p
    exact ⟨rfl, rfl⟩
  · intro hp1 ui1 mr1 ha1 dp1 hp2 ui2 mr2 ha2 dp2 h1 h2 h3 h4 h5 h6
    unfold validateInputs
    simp only [List.map_append, map_if_singleton, Warning.kind]
    exact List.Sublist.append
      (List.Sublist.append
        (List.Sublist.append
          (List.Sublist.append
            (List.Sublist.append (if_singleton_sub_of_imp h1 _) (if_singleton_sub_of_imp h2 _))
            (if_singleton_sub_of_imp h3 _))
          (if_singleton_sub_of_imp h4 _))
        (if_singleton_sub_of_imp h5 _))
      (if_singleton_sub_of_imp h6 _)
  · intro hp1 ui1 hp2 ui2 mr ha dp h1 h2 h6
    unfold validateInputs
    exact List.Sublist.append
      (List.Sublist.append
        (List.Sublist.append
          (List.Sublist.append
            (List.Sublist.append (if_singleton_sub_of_imp h1 _) (if_singleton_sub_of_imp h2 _))
            (List.Sublist.refl _))
          (List.Sublist.refl _))
        (List.Sublist.refl _))
      (if_singleton_sub_of_imp h6 _)

/-- C7 witness: an input violating only the house-price condition versus
one violating house-price and income; the first warning list is a prefix
of the second. -/
theorem claim_C7_witness :
    List.Sublist (validateInputs 0 50000 5 3 20) (validateInputs 0 0 5 3 20) :=
  claim_C7_validation.2.2.2 0 50000 0 0 5 3 20 (fun _ => le_refl 0) (fun _ => le_refl 0)
    (fun h => absurd h (by norm_num))

end Calculator
